import Mathlib

/-!
Verification of the hydration core of the h2o-tender application.

The definitions below are a shallow embedding of the TypeScript source:

* `src/utils/hydration.ts` — `calculateDailyGoal`, `parseTimeToMinutes`,
  `formatMinutesToTime`, `computeReminderSchedule`, `redistributeOnSkip`;
* `src/models/types.ts` — `UserSettings`, `DailyState`, `ScheduledReminder`,
  `DEFAULT_SETTINGS`, `DEFAULT_DAILY_STATE`;
* `src/context/AppContext.tsx` — the state updates performed by
  `recordConsumption` and `updateSettings`, with the persistence write
  modelled as a boolean success flag.

JavaScript `number` arithmetic on the magnitudes used by the app (weights up
to 500 kg, volumes of a few thousand ml) is exact in double precision, so it
is modelled with `ℚ`; values the source produces or stores as integers
(`Math.round(x) * 10` results, counters, ml ledger amounts) are modelled with
`ℤ`/`ℕ`.  Time-of-day strings `"HH:MM"` are modelled as already-parsed
hour/minute pairs; `parseTimeToMinutes` and `formatMinutesToTime` embed the
conversions the source performs on those strings.
-/

/-- Activity levels from `src/models/types.ts` (`ActivityLevel`). -/
inductive ActivityLevel
  | none
  | light
  | moderate
  | heavy
deriving DecidableEq

/-- Climate types from `src/models/types.ts` (`ClimateType`). -/
inductive ClimateType
  | cold
  | mild
  | hot
  | veryHot
deriving DecidableEq

/-- Weight display units from `src/models/types.ts` (`WeightUnit`). -/
inductive WeightUnit
  | kg
  | lbs
deriving DecidableEq

/-- JavaScript `Math.round`: nearest integer, halves toward positive
infinity, i.e. `Math.round(x) = ⌊x + 1/2⌋` for every finite `x`. -/
def mathRound (q : ℚ) : ℤ :=
  ⌊q + 1 / 2⌋

/-- The `climateAdjustments` record literal inside `calculateDailyGoal`
(`src/utils/hydration.ts` lines 42–47). -/
def climateAdjustments : ClimateType → ℤ
  | .cold => -200
  | .mild => 0
  | .hot => 300
  | .veryHot => 500

/-- The `activityAdjustments` record literal inside `calculateDailyGoal`
(`src/utils/hydration.ts` lines 50–55). -/
def activityAdjustments : ActivityLevel → ℤ
  | .none => 0
  | .light => 200
  | .moderate => 500
  | .heavy => 800

/-- Embedding of `calculateDailyGoal` (`src/utils/hydration.ts` lines 33–64):
`base = weight * 32`, plus the climate and activity adjustments, then
`Math.round(total / 10) * 10`. -/
def calculateDailyGoal (weight : ℚ) (climate : ClimateType)
    (activity : ActivityLevel) : ℤ :=
  let base : ℚ := weight * 32
  let climateAdj : ℤ := climateAdjustments climate
  let activityAdj : ℤ := activityAdjustments activity
  let total : ℚ := base + (climateAdj : ℚ) + (activityAdj : ℚ)
  mathRound (total / 10) * 10

/-- An already-parsed `"HH:MM"` time-of-day string. -/
structure HM where
  hours : ℕ
  minutes : ℕ
deriving DecidableEq

/-- Embedding of `parseTimeToMinutes` (`src/utils/hydration.ts` lines 72–75):
`hours * 60 + minutes`. -/
def parseTimeToMinutes (t : HM) : ℕ :=
  t.hours * 60 + t.minutes

/-- Embedding of `formatMinutesToTime` (`src/utils/hydration.ts` lines
83–87): `hours = Math.floor(minutes / 60)`, `mins = minutes % 60`; the
zero-padding of the string is display-only and not part of the model. -/
def formatMinutesToTime (minutes : ℕ) : HM :=
  ⟨minutes / 60, minutes % 60⟩

/-- The `ScheduledReminder` interface from `src/models/types.ts` lines 58–62. -/
structure ScheduledReminder where
  time : HM
  amountML : ℤ
  index : ℕ
deriving DecidableEq

/-- Embedding of `computeReminderSchedule` (`src/utils/hydration.ts` lines
101–144).  `awakeDuration` gets `24 * 60` added only when it is strictly
negative; `numberOfReminders = Math.floor(awakeDuration / frequency)` is
floor division; a non-positive count yields `[]`; otherwise slot `i` is at
`(wakeMinutes + i * frequency) % 1440` and carries
`Math.round((dailyGoalML / numberOfReminders) / 10) * 10` ml. -/
def computeReminderSchedule (wakeTime sleepTime : HM) (frequency : ℕ)
    (dailyGoalML : ℚ) : List ScheduledReminder :=
  let wakeMinutes := parseTimeToMinutes wakeTime
  let sleepMinutes := parseTimeToMinutes sleepTime
  let awakeDuration : ℤ := (sleepMinutes : ℤ) - (wakeMinutes : ℤ)
  let awakeDuration : ℤ :=
    if awakeDuration < 0 then awakeDuration + 24 * 60 else awakeDuration
  let numberOfReminders : ℤ := Int.fdiv awakeDuration (frequency : ℤ)
  if numberOfReminders ≤ 0 then
    []
  else
    let mlPerReminder : ℤ :=
      mathRound ((dailyGoalML / (numberOfReminders : ℚ)) / 10) * 10
    (List.range numberOfReminders.toNat).map fun i =>
      { time := formatMinutesToTime ((wakeMinutes + i * frequency) % (24 * 60))
        amountML := mlPerReminder
        index := i }

/-- Embedding of `redistributeOnSkip` (`src/utils/hydration.ts` lines
157–175): `remaining = totalGoal - consumed`; returns `0` when
`remindersLeft ≤ 0` or `remaining ≤ 0`, otherwise
`Math.round((remaining / remindersLeft) / 10) * 10`. -/
def redistributeOnSkip (totalGoal consumed remindersLeft : ℚ) : ℤ :=
  let remaining := totalGoal - consumed
  if remindersLeft ≤ 0 ∨ remaining ≤ 0 then
    0
  else
    mathRound ((remaining / remindersLeft) / 10) * 10

/-- The `DailyState` interface from `src/models/types.ts` lines 46–53. -/
structure DailyState where
  date : String
  consumedML : ℤ
  remainingML : ℤ
  remindersCompleted : ℕ
  remindersSkipped : ℕ
  scheduledReminderIds : List String
deriving DecidableEq

/-- The `UserSettings` interface from `src/models/types.ts` lines 27–40;
optional fields are `Option`s. -/
structure UserSettings where
  age : Option ℚ
  weight : ℚ
  weightUnit : Option WeightUnit
  activity : ActivityLevel
  wakeTime : HM
  sleepTime : HM
  reminderFrequency : ℕ
  climate : ClimateType
  dailyGoalML : ℤ
  aiProfileSummary : String
  locationName : Option String
  onboardingComplete : Bool
deriving DecidableEq

/-- The `DEFAULT_SETTINGS` constant from `src/models/types.ts` lines
129–139: weight 70, activity light, wake 07:00, sleep 22:00, frequency 90,
climate mild, `dailyGoalML = 2240`. -/
def DEFAULT_SETTINGS : UserSettings :=
  { age := Option.none
    weight := 70
    weightUnit := Option.none
    activity := .light
    wakeTime := ⟨7, 0⟩
    sleepTime := ⟨22, 0⟩
    reminderFrequency := 90
    climate := .mild
    dailyGoalML := 2240
    aiProfileSummary := ""
    locationName := Option.none
    onboardingComplete := false }

/-- The `DEFAULT_DAILY_STATE` constant from `src/models/types.ts` lines
145–151 (an `Omit<DailyState, date>`), together with a date. -/
def DEFAULT_DAILY_STATE (date : String) : DailyState :=
  { date := date
    consumedML := 0
    remainingML := 0
    remindersCompleted := 0
    remindersSkipped := 0
    scheduledReminderIds := [] }

/-- A `Partial<UserSettings>` argument of `updateSettings`: `some` marks a
field that is present (not `undefined`) in the update object. -/
structure SettingsUpdate where
  age : Option ℚ
  weight : Option ℚ
  weightUnit : Option WeightUnit
  activity : Option ActivityLevel
  wakeTime : Option HM
  sleepTime : Option HM
  reminderFrequency : Option ℕ
  climate : Option ClimateType
  dailyGoalML : Option ℤ
  aiProfileSummary : Option String
  locationName : Option String
  onboardingComplete : Option Bool

/-- The update object with no fields present. -/
def emptySettingsUpdate : SettingsUpdate :=
  ⟨Option.none, Option.none, Option.none, Option.none, Option.none,
    Option.none, Option.none, Option.none, Option.none, Option.none,
    Option.none, Option.none⟩

/-- The spread `{ ...settings, ...updates }` in `updateSettings`
(`src/context/AppContext.tsx` line 120). -/
def applySettingsUpdate (s : UserSettings) (u : SettingsUpdate) : UserSettings :=
  { age := u.age.rec s.age fun a => some a
    weight := u.weight.getD s.weight
    weightUnit := u.weightUnit.rec s.weightUnit fun w => some w
    activity := u.activity.getD s.activity
    wakeTime := u.wakeTime.getD s.wakeTime
    sleepTime := u.sleepTime.getD s.sleepTime
    reminderFrequency := u.reminderFrequency.getD s.reminderFrequency
    climate := u.climate.getD s.climate
    dailyGoalML := u.dailyGoalML.getD s.dailyGoalML
    aiProfileSummary := u.aiProfileSummary.getD s.aiProfileSummary
    locationName := u.locationName.rec s.locationName fun n => some n
    onboardingComplete := u.onboardingComplete.getD s.onboardingComplete }

/-- Embedding of the in-memory effect of `updateSettings`
(`src/context/AppContext.tsx` lines 114–151), with both persistence writes
assumed to succeed.  The daily goal is recomputed by `calculateDailyGoal`
exactly when the update object contains `weight`, `climate` or `activity`
(the `!== undefined` checks on lines 123–127); the daily state is touched
only under the JavaScript-truthiness test `dailyState && updates.dailyGoalML`
(line 139), and then gets `remainingML = updates.dailyGoalML - consumedML`
(line 142) with no clamping. -/
def updateSettings (s : UserSettings) (d : Option DailyState)
    (u : SettingsUpdate) : UserSettings × Option DailyState :=
  let ns0 := applySettingsUpdate s u
  let ns :=
    if u.weight.isSome ∨ u.climate.isSome ∨ u.activity.isSome then
      { ns0 with
          dailyGoalML := calculateDailyGoal ns0.weight ns0.climate ns0.activity }
    else ns0
  match d, u.dailyGoalML with
  | some ds, some goalUpdate =>
      if goalUpdate = 0 then (ns, some ds)
      else (ns, some { ds with remainingML := goalUpdate - ds.consumedML })
  | some ds, Option.none => (ns, some ds)
  | Option.none, _ => (ns, Option.none)

/-- The in-memory state update of `recordConsumption`
(`src/context/AppContext.tsx` lines 156–177):
`consumed += amount; remaining = max(0, goal - consumed)`. -/
def recordConsumptionUpdate (dailyGoalML : ℤ) (d : DailyState)
    (amountML : ℤ) : DailyState :=
  { d with
      consumedML := d.consumedML + amountML
      remainingML := max 0 (dailyGoalML - (d.consumedML + amountML)) }

/-- A sequence of consecutive `recordConsumption` calls against a fixed
daily goal (each call in the source reads `settings.dailyGoalML`). -/
def applyConsumptions (dailyGoalML : ℤ) (d : DailyState)
    (amounts : List ℤ) : DailyState :=
  amounts.foldl (recordConsumptionUpdate dailyGoalML) d

/-- Embedding of a full `recordConsumption` call including the awaited
persistence write (`src/context/AppContext.tsx` lines 156–177 together with
`saveDailyState`, `src/services/persistence.ts` lines 100–109): the updated
state is computed, then `saveDailyState` runs; when it fails the `catch`
block rethrows before `setDailyState` is reached, so the second component —
the in-memory state after the call — is the unchanged input state. -/
def recordConsumptionRun (dailyGoalML : ℤ) (d : DailyState) (amountML : ℤ)
    (saveOk : Bool) : Except String Unit × DailyState :=
  let updatedState := recordConsumptionUpdate dailyGoalML d amountML
  if saveOk then
    (Except.ok (), updatedState)
  else
    (Except.error ("Failed to record consumption"), d)

/-- Spec example: weight 70, mild, light gives 2240 + 0 + 200 = 2440 ml. -/
theorem calculateDailyGoal_example_mild_light :
    calculateDailyGoal 70 .mild .light = 2440 := by
  norm_num [calculateDailyGoal, mathRound, climateAdjustments,
    activityAdjustments]
/-- Spec example: weight 70, hot, heavy gives 2240 + 300 + 800 = 3340 ml. -/
theorem calculateDailyGoal_example_hot_heavy :
    calculateDailyGoal 70 .hot .heavy = 3340 := by
  norm_num [calculateDailyGoal, mathRound, climateAdjustments,
    activityAdjustments]
/-- Spec example: goal 2440, consumed 600, three left gives 610 ml each. -/
theorem redistributeOnSkip_example :
    redistributeOnSkip 2440 600 3 = 610 := by
  norm_num [redistributeOnSkip, mathRound, Int.floor_eq_iff]
/-- Spec example: wake 07:00, sleep 22:00, hourly gives 15 slots. -/
theorem computeReminderSchedule_example_length :
    (computeReminderSchedule ⟨7, 0⟩ ⟨22, 0⟩ 60 2440).length = 15 := by decide
/-- Spec example: wake 22:00, sleep 06:00 wraps past midnight. -/
theorem computeReminderSchedule_example_wrap :
    (computeReminderSchedule ⟨22, 0⟩ ⟨6, 0⟩ 60 2000).map (fun r => r.time) =
      [⟨22, 0⟩, ⟨23, 0⟩, ⟨0, 0⟩, ⟨1, 0⟩, ⟨2, 0⟩, ⟨3, 0⟩, ⟨4, 0⟩, ⟨5, 0⟩] := by
  decide

/-! ### Helper lemmas -/

theorem parse_format (m : ℕ) : parseTimeToMinutes (formatMinutesToTime m) = m := by
  simp only [parseTimeToMinutes, formatMinutesToTime]
  omega

theorem mathRound_le (q : ℚ) : (mathRound q : ℚ) ≤ q + 1 / 2 :=
  Int.floor_le _

theorem lt_mathRound (q : ℚ) : q - 1 / 2 < (mathRound q : ℚ) := by
  have h := Int.lt_floor_add_one (q + 1 / 2)
  unfold mathRound
  linarith

theorem round10_close (q : ℚ) :
    |((mathRound (q / 10) * 10 : ℤ) : ℚ) - q| ≤ 5 := by
  have h1 := mathRound_le (q / 10)
  have h2 := lt_mathRound (q / 10)
  rw [abs_le]
  push_cast
  constructor <;> linarith

/-! ### Claim theorems -/

/-- C1: for every weight `w ∈ [1,500]`, climate `c` and activity `a`,
`calculateDailyGoal` returns `round((w*32 + climateAdj c + activityAdj a)/10)*10`
with the adjustment tables cold=-200, mild=0, hot=+300, veryHot=+500 and
none=0, light=+200, moderate=+500, heavy=+800; consequently the result is
divisible by 10, and the function is deterministic. -/
theorem calculateDailyGoal_spec (w : ℚ) (c : ClimateType) (a : ActivityLevel)
    (_h1 : 1 ≤ w) (_h2 : w ≤ 500) :
    calculateDailyGoal w c a
        = mathRound ((w * 32 + (climateAdjustments c : ℚ)
            + (activityAdjustments a : ℚ)) / 10) * 10 ∧
    (climateAdjustments .cold = -200 ∧ climateAdjustments .mild = 0 ∧
      climateAdjustments .hot = 300 ∧ climateAdjustments .veryHot = 500 ∧
      activityAdjustments .none = 0 ∧ activityAdjustments .light = 200 ∧
      activityAdjustments .moderate = 500 ∧ activityAdjustments .heavy = 800) ∧
    (10 : ℤ) ∣ calculateDailyGoal w c a ∧
    (∀ w2 c2 a2, w = w2 → c = c2 → a = a2 →
      calculateDailyGoal w c a = calculateDailyGoal w2 c2 a2) := by
  refine ⟨rfl, ⟨rfl, rfl, rfl, rfl, rfl, rfl, rfl, rfl⟩,
    dvd_mul_left 10 _, ?_⟩
  rintro w2 c2 a2 rfl rfl rfl
  rfl

/-- Witness for C1 at weight 70, mild climate, light activity. -/
theorem calculateDailyGoal_spec_witness :
    (1 : ℚ) ≤ 70 ∧ (70 : ℚ) ≤ 500 ∧
    (10 : ℤ) ∣ calculateDailyGoal 70 .mild .light :=
  ⟨by decide, by decide,
    (calculateDailyGoal_spec 70 .mild .light (by decide) (by decide)).2.2.1⟩

/-- C3: `redistributeOnSkip` returns 0 whenever `remindersLeft ≤ 0` or
`consumed ≥ goal`; and for `goal ≥ 0`, `consumed ∈ [0, goal)`,
`remindersLeft > 0` it returns `round(((goal-consumed)/remindersLeft)/10)*10`,
whose product with `remindersLeft` is within `5 × remindersLeft` ml of
`goal - consumed`. -/
theorem redistributeOnSkip_spec (goal consumed remindersLeft : ℤ) :
    ((remindersLeft ≤ 0 ∨ goal ≤ consumed) →
      redistributeOnSkip (goal : ℚ) (consumed : ℚ) (remindersLeft : ℚ) = 0) ∧
    (0 ≤ goal → 0 ≤ consumed → consumed < goal → 0 < remindersLeft →
      redistributeOnSkip (goal : ℚ) (consumed : ℚ) (remindersLeft : ℚ)
          = mathRound ((((goal : ℚ) - (consumed : ℚ)) / (remindersLeft : ℚ))
              / 10) * 10 ∧
      |(redistributeOnSkip (goal : ℚ) (consumed : ℚ) (remindersLeft : ℚ) : ℚ)
            * (remindersLeft : ℚ) - ((goal : ℚ) - (consumed : ℚ))|
          ≤ 5 * (remindersLeft : ℚ)) := by
  constructor
  · intro h
    have hcond : (remindersLeft : ℚ) ≤ 0 ∨ (goal : ℚ) - (consumed : ℚ) ≤ 0 := by
      rcases h with h | h
      · exact Or.inl (by exact_mod_cast h)
      · refine Or.inr (sub_nonpos.mpr ?_)
        exact_mod_cast h
    simp only [redistributeOnSkip, if_pos hcond]
  · intro hg hc hlt hL
    have hL0 : (0 : ℚ) < (remindersLeft : ℚ) := by exact_mod_cast hL
    have hgc : (0 : ℚ) < (goal : ℚ) - (consumed : ℚ) := by
      have h : (consumed : ℚ) < (goal : ℚ) := by exact_mod_cast hlt
      linarith
    have hcond : ¬((remindersLeft : ℚ) ≤ 0 ∨ (goal : ℚ) - (consumed : ℚ) ≤ 0) := by
      push_neg
      exact ⟨hL0, hgc⟩
    refine ⟨by simp only [redistributeOnSkip, if_neg hcond], ?_⟩
    simp only [redistributeOnSkip, if_neg hcond]
    have key := round10_close (((goal : ℚ) - (consumed : ℚ)) / (remindersLeft : ℚ))
    have hmul :
        ((mathRound ((((goal : ℚ) - (consumed : ℚ)) / (remindersLeft : ℚ)) / 10)
              * 10 : ℤ) : ℚ) * (remindersLeft : ℚ)
            - ((goal : ℚ) - (consumed : ℚ))
          = (((mathRound ((((goal : ℚ) - (consumed : ℚ)) / (remindersLeft : ℚ))
                / 10) * 10 : ℤ) : ℚ)
              - ((goal : ℚ) - (consumed : ℚ)) / (remindersLeft : ℚ))
            * (remindersLeft : ℚ) := by
      rw [sub_mul, div_mul_cancel₀ _ (ne_of_gt hL0)]
    rw [hmul, abs_mul, abs_of_pos hL0]
    exact mul_le_mul_of_nonneg_right key (le_of_lt hL0)

/-- Witness for C3 at goal 2440, consumed 600, three reminders left. -/
theorem redistributeOnSkip_spec_witness :
    (0 : ℤ) ≤ 2440 ∧ (0 : ℤ) ≤ 600 ∧ (600 : ℤ) < 2440 ∧ (0 : ℤ) < 3 ∧
    redistributeOnSkip ((2440 : ℤ) : ℚ) ((600 : ℤ) : ℚ) ((3 : ℤ) : ℚ)
        = mathRound (((((2440 : ℤ) : ℚ) - ((600 : ℤ) : ℚ)) / ((3 : ℤ) : ℚ))
            / 10) * 10 :=
  ⟨by decide, by decide, by decide, by decide,
    ((redistributeOnSkip_spec 2440 600 3).2 (by decide) (by decide)
        (by decide) (by decide)).1⟩

/-- C10: there are inputs with a positive gap to the goal and a positive
number of reminders left where `redistributeOnSkip` still returns 0 — and in
general it returns 0 whenever `(goal - consumed) / remindersLeft < 5`, since
rounding to the nearest 10 ml yields 0. -/
theorem redistributeOnSkip_zero_below_half_step :
    (redistributeOnSkip 4 0 1 = 0 ∧ (0 : ℚ) < 4 - 0 ∧ (0 : ℚ) < 1) ∧
    (∀ goal consumed remindersLeft : ℤ, consumed < goal → 0 < remindersLeft →
      goal - consumed < 5 * remindersLeft →
      redistributeOnSkip (goal : ℚ) (consumed : ℚ) (remindersLeft : ℚ) = 0) := by
  constructor
  · refine ⟨?_, by norm_num, by norm_num⟩
    norm_num [redistributeOnSkip, mathRound, Int.floor_eq_iff]
  · intro g c L h1 h2 h3
    have hL0 : (0 : ℚ) < (L : ℚ) := by exact_mod_cast h2
    have hgc : (0 : ℚ) < (g : ℚ) - (c : ℚ) := by
      have h : (c : ℚ) < (g : ℚ) := by exact_mod_cast h1
      linarith
    have hcond : ¬((L : ℚ) ≤ 0 ∨ (g : ℚ) - (c : ℚ) ≤ 0) := by
      push_neg
      exact ⟨hL0, hgc⟩
    have hlt5 : ((g : ℚ) - (c : ℚ)) / (L : ℚ) < 5 := by
      rw [div_lt_iff₀ hL0]
      have h5 : (g : ℚ) - (c : ℚ) < 5 * (L : ℚ) := by exact_mod_cast h3
      linarith
    have hfloor : ⌊((g : ℚ) - (c : ℚ)) / (L : ℚ) / 10 + 1 / 2⌋ = 0 := by
      rw [Int.floor_eq_zero_iff, Set.mem_Ico]
      constructor
      · have hpos : 0 < ((g : ℚ) - (c : ℚ)) / (L : ℚ) / 10 := by positivity
        linarith
      · have hhalf : ((g : ℚ) - (c : ℚ)) / (L : ℚ) / 10 < 1 / 2 := by linarith
        linarith
    simp only [redistributeOnSkip, if_neg hcond, mathRound]
    rw [hfloor]
    norm_num

/-- Witness for C10 at goal 300, consumed 0, 61 reminders left: the gap is
positive yet the redistributed amount is 0. -/
theorem redistributeOnSkip_zero_below_half_step_witness :
    ((0 : ℤ) < 300 ∧ (0 : ℤ) < 61 ∧ (300 : ℤ) - 0 < 5 * 61) ∧
    redistributeOnSkip ((300 : ℤ) : ℚ) ((0 : ℤ) : ℚ) ((61 : ℤ) : ℚ) = 0 :=
  ⟨⟨by decide, by decide, by decide⟩,
    redistributeOnSkip_zero_below_half_step.2 300 0 61 (by decide) (by decide)
      (by decide)⟩

theorem applyConsumptions_consumed (goal : ℤ) (d : DailyState)
    (amounts : List ℤ) :
    (applyConsumptions goal d amounts).consumedML
      = d.consumedML + amounts.sum := by
  induction amounts generalizing d with
  | nil => simp [applyConsumptions]
  | cons a t ih =>
      show (applyConsumptions goal (recordConsumptionUpdate goal d a) t).consumedML = _
      rw [ih]
      simp only [recordConsumptionUpdate, List.sum_cons]
      ring

theorem applyConsumptions_remaining (goal : ℤ) (d : DailyState)
    (amounts : List ℤ) (h : amounts ≠ []) :
    (applyConsumptions goal d amounts).remainingML
      = max 0 (goal - (applyConsumptions goal d amounts).consumedML) := by
  induction amounts generalizing d with
  | nil => exact absurd rfl h
  | cons a t ih =>
      cases t with
      | nil => simp [applyConsumptions, recordConsumptionUpdate]
      | cons b u =>
          show (applyConsumptions goal (recordConsumptionUpdate goal d a)
              (b :: u)).remainingML = _
          exact ih (recordConsumptionUpdate goal d a) (by simp)

/-- C4: consecutive `recordConsumption` calls are additive — after any
sequence of non-negative amounts, consumed equals the initial consumed plus
the sum of the amounts — and after every call `remainingML` equals
`max 0 (goal - consumedML)`, hence is never negative. -/
theorem recordConsumption_additive_spec (goal : ℤ) (d : DailyState)
    (amounts : List ℤ) (_hpos : ∀ a ∈ amounts, 0 ≤ a) :
    (applyConsumptions goal d amounts).consumedML
        = d.consumedML + amounts.sum ∧
    ∀ i, i < amounts.length →
      (applyConsumptions goal d (amounts.take (i + 1))).remainingML
          = max 0 (goal
              - (applyConsumptions goal d (amounts.take (i + 1))).consumedML) ∧
      0 ≤ (applyConsumptions goal d (amounts.take (i + 1))).remainingML := by
  refine ⟨applyConsumptions_consumed goal d amounts, ?_⟩
  intro i hi
  have hne : amounts.take (i + 1) ≠ [] := by
    have hlen : 0 < (amounts.take (i + 1)).length := by
      rw [List.length_take]
      omega
    exact List.length_pos.mp hlen
  have hrem := applyConsumptions_remaining goal d (amounts.take (i + 1)) hne
  exact ⟨hrem, hrem ▸ le_max_left 0 _⟩

/-- Witness for C4: two additions of 250 ml and 500 ml starting from a fresh
day with goal 2000 ml. -/
theorem recordConsumption_additive_spec_witness :
    (∀ a ∈ ([250, 500] : List ℤ), 0 ≤ a) ∧
    (applyConsumptions 2000 (DEFAULT_DAILY_STATE "2025-01-01")
        [250, 500]).consumedML
      = (DEFAULT_DAILY_STATE "2025-01-01").consumedML
        + ([250, 500] : List ℤ).sum :=
  ⟨by decide,
    (recordConsumption_additive_spec 2000 (DEFAULT_DAILY_STATE "2025-01-01")
        [250, 500] (by decide)).1⟩

/-- C7 counterexample: the state machine does not clamp for every argument —
`recordConsumption` with a negative amount makes `consumedML` negative, and
`updateSettings` with a `dailyGoalML` below the consumed amount stores a
negative `remainingML` (the line-142 assignment has no `max 0`). -/
theorem state_clamped_cx :
    (recordConsumptionUpdate 2000 (DEFAULT_DAILY_STATE "2025-01-01")
        (-100)).consumedML = -100 ∧
    ((-100 : ℤ) < 0) ∧
    (updateSettings DEFAULT_SETTINGS
        (some ⟨"2025-01-01", 1500, 740, 0, 0, []⟩)
        { emptySettingsUpdate with dailyGoalML := some 1000 }).2
      = some ⟨"2025-01-01", 1500, -500, 0, 0, []⟩ ∧
    ((-500 : ℤ) < 0) := by
  exact ⟨by decide, by decide, by decide, by decide⟩

/-- C7 (amended): for non-negative starting consumed and a non-negative
amount, `recordConsumption` keeps both consumed and remaining non-negative
(remaining by the `max 0` clamp), and `updateSettings` never changes
consumed; but a negative amount can drive consumed negative and the
`updateSettings` remaining assignment is unclamped. -/
theorem state_nonneg_amended (goal : ℤ) (d : DailyState) (a : ℤ)
    (hd : 0 ≤ d.consumedML) (ha : 0 ≤ a) :
    0 ≤ (recordConsumptionUpdate goal d a).consumedML ∧
    0 ≤ (recordConsumptionUpdate goal d a).remainingML ∧
    ∀ (s : UserSettings) (u : SettingsUpdate) (d2 : DailyState),
      ∃ d3, (updateSettings s (some d2) u).2 = some d3 ∧
        d3.consumedML = d2.consumedML := by
  refine ⟨?_, le_max_left 0 _, ?_⟩
  · show 0 ≤ d.consumedML + a
    omega
  · intro s u d2
    rcases hu : u.dailyGoalML with _ | g
    · exact ⟨d2, by simp [updateSettings, hu], rfl⟩
    · by_cases hg : g = 0
      · exact ⟨d2, by simp [updateSettings, hu, hg], rfl⟩
      · exact ⟨{ d2 with remainingML := g - d2.consumedML },
          by simp [updateSettings, hu, hg], rfl⟩

/-- Witness for C7 (amended) at a fresh day, goal 2000 ml, amount 250 ml. -/
theorem state_nonneg_amended_witness :
    (0 : ℤ) ≤ (DEFAULT_DAILY_STATE "2025-01-01").consumedML ∧
    (0 : ℤ) ≤ 250 ∧
    0 ≤ (recordConsumptionUpdate 2000 (DEFAULT_DAILY_STATE "2025-01-01")
        250).consumedML :=
  ⟨by decide, by decide,
    (state_nonneg_amended 2000 (DEFAULT_DAILY_STATE "2025-01-01") 250
        (by decide) (by decide)).1⟩

/-- C9 counterexample: when the persistence write fails, `recordConsumption`
rethrows from the `catch` before `setDailyState` runs, so the in-memory
state keeps the old consumed amount — the in-memory update is not applied,
contrary to the claim. -/
theorem recordConsumption_saveFail_cx :
    (recordConsumptionRun 2000 (DEFAULT_DAILY_STATE "2025-01-01")
        100 false).1 = Except.error ("Failed to record consumption") ∧
    (recordConsumptionRun 2000 (DEFAULT_DAILY_STATE "2025-01-01")
        100 false).2.consumedML = 0 ∧
    ((0 : ℤ) ≠ 100) :=
  ⟨rfl, rfl, by decide⟩

/-- C9 (amended): a failed persistence write is propagated to the caller as
an error, and the in-memory state is left unchanged — the operation fully
rejects before applying its update; the update is applied exactly when the
save succeeds. -/
theorem recordConsumption_saveFail_amended (goal : ℤ) (d : DailyState)
    (a : ℤ) :
    (recordConsumptionRun goal d a false).1
        = Except.error ("Failed to record consumption") ∧
    (recordConsumptionRun goal d a false).2 = d ∧
    (recordConsumptionRun goal d a true).2 = recordConsumptionUpdate goal d a :=
  ⟨rfl, rfl, rfl⟩

/-- C5: evaluating `updateSettings` at a weight-only update (70→80 kg, mild
climate, light activity, consumed 0): the stored goal is recomputed to
2760 ml, but the daily state is returned untouched because the line-139
guard tests `updates.dailyGoalML` instead of whether the goal changed, so
`remainingML` keeps the stale 2440 instead of `max 0 (2760 - 0)`. -/
theorem updateSettings_weight_only_stale_remaining :
    (updateSettings DEFAULT_SETTINGS (some ⟨"2025-01-01", 0, 2440, 0, 0, []⟩)
        { emptySettingsUpdate with weight := some 80 }).1.dailyGoalML
      = 2760 ∧
    (updateSettings DEFAULT_SETTINGS (some ⟨"2025-01-01", 0, 2440, 0, 0, []⟩)
        { emptySettingsUpdate with weight := some 80 }).2
      = some ⟨"2025-01-01", 0, 2440, 0, 0, []⟩ ∧
    (2440 : ℤ) ≠ max 0 (2760 - 0) := by
  refine ⟨?_, by decide, by decide⟩
  show calculateDailyGoal 80 .mild .light = 2760
  norm_num [calculateDailyGoal, mathRound, climateAdjustments,
    activityAdjustments]

/-- C8: the default settings constant stores `dailyGoalML = 2240`, yet the
goal-calculation function applied to its own weight/climate/activity
(70 kg, mild, light — the inputs its code comment names) returns 2440, so
the stored goal is not the output of that computation. -/
theorem DEFAULT_SETTINGS_goal_mismatch :
    calculateDailyGoal DEFAULT_SETTINGS.weight DEFAULT_SETTINGS.climate
        DEFAULT_SETTINGS.activity = 2440 ∧
    DEFAULT_SETTINGS.dailyGoalML = 2240 ∧
    (2440 : ℤ) ≠ 2240 := by
  refine ⟨?_, by decide, by decide⟩
  show calculateDailyGoal 70 .mild .light = 2440
  norm_num [calculateDailyGoal, mathRound, climateAdjustments,
    activityAdjustments]

theorem list_map_const_sum (n : ℕ) (z : ℤ) :
    ((List.range n).map (fun _ => z)).sum = (n : ℤ) * z := by
  induction n with
  | zero => simp
  | succ m ih =>
      rw [List.range_succ, List.map_append, List.sum_append]
      simp [ih]
      ring

theorem computeReminderSchedule_eq_of_wake_lt_sleep (wake sleep : HM) (f : ℕ)
    (g : ℚ) (hws : parseTimeToMinutes wake < parseTimeToMinutes sleep)
    (_hf : 0 < f) :
    computeReminderSchedule wake sleep f g
      = (List.range ((parseTimeToMinutes sleep - parseTimeToMinutes wake) / f)).map
          (fun i =>
            { time := formatMinutesToTime ((parseTimeToMinutes wake + i * f)
                  % (24 * 60))
              amountML := mathRound ((g / (((parseTimeToMinutes sleep
                  - parseTimeToMinutes wake) / f : ℕ) : ℚ)) / 10) * 10
              index := i }) := by
  have hneg : ¬ ((parseTimeToMinutes sleep : ℤ)
      - (parseTimeToMinutes wake : ℤ) < 0) := by omega
  have hfd : Int.fdiv ((parseTimeToMinutes sleep : ℤ)
        - (parseTimeToMinutes wake : ℤ)) (f : ℤ)
      = (((parseTimeToMinutes sleep - parseTimeToMinutes wake) / f : ℕ) : ℤ) := by
    rw [Int.fdiv_eq_ediv _ (Int.natCast_nonneg f)]
    rw [show (parseTimeToMinutes sleep : ℤ) - (parseTimeToMinutes wake : ℤ)
        = ((parseTimeToMinutes sleep - parseTimeToMinutes wake : ℕ) : ℤ) by omega]
    exact (Int.natCast_div _ f).symm
  simp only [computeReminderSchedule, if_neg hneg, hfd]
  rcases Nat.eq_zero_or_pos ((parseTimeToMinutes sleep
      - parseTimeToMinutes wake) / f) with h0 | h0
  · rw [h0]
    simp
  · rw [if_neg (show ¬ ((((parseTimeToMinutes sleep - parseTimeToMinutes wake)
        / f : ℕ) : ℤ) ≤ 0) by omega)]
    simp only [Int.toNat_natCast, Int.cast_natCast]

theorem list_range_map_const {α : Type} (n : ℕ) (z : α) :
    (List.range n).map (fun _ => z) = List.replicate n z := by
  induction n with
  | zero => simp
  | succ m ih =>
      rw [List.range_succ, List.map_append, ih, List.replicate_succ']
      simp

/-- C2: for a same-day awake window (`wake < sleep ≤ 1439` minutes) and
frequency 60 or 90, the schedule has exactly
`floor((sleep - wake) / f)` slots (empty when that count is 0), slot `i` is
at `wake + i*f` minutes with ordinal `i`, every slot carries the same amount
`round((goal / count) / 10) * 10`, and for a non-empty schedule the sum of
the per-slot amounts is within `10 × count` ml of the goal. -/
theorem computeReminderSchedule_sameday_spec (wake sleep : HM) (f : ℕ) (g : ℚ)
    (hsm : parseTimeToMinutes sleep ≤ 1439)
    (hws : parseTimeToMinutes wake < parseTimeToMinutes sleep)
    (hf : f = 60 ∨ f = 90) :
    (computeReminderSchedule wake sleep f g).length
        = (parseTimeToMinutes sleep - parseTimeToMinutes wake) / f ∧
    ((parseTimeToMinutes sleep - parseTimeToMinutes wake) / f = 0 →
      computeReminderSchedule wake sleep f g = []) ∧
    (computeReminderSchedule wake sleep f g).map
        (fun r => parseTimeToMinutes r.time)
      = (List.range ((parseTimeToMinutes sleep - parseTimeToMinutes wake) / f)).map
          (fun i => parseTimeToMinutes wake + i * f) ∧
    (computeReminderSchedule wake sleep f g).map (fun r => r.index)
      = List.range ((parseTimeToMinutes sleep - parseTimeToMinutes wake) / f) ∧
    (computeReminderSchedule wake sleep f g).map (fun r => r.amountML)
      = List.replicate ((parseTimeToMinutes sleep - parseTimeToMinutes wake) / f)
          (mathRound ((g / (((parseTimeToMinutes sleep
              - parseTimeToMinutes wake) / f : ℕ) : ℚ)) / 10) * 10) ∧
    (0 < (parseTimeToMinutes sleep - parseTimeToMinutes wake) / f →
      |(((((computeReminderSchedule wake sleep f g).map
            (fun r => r.amountML)).sum : ℤ) : ℚ)) - g|
        ≤ 10 * (((parseTimeToMinutes sleep - parseTimeToMinutes wake) / f : ℕ) : ℚ)) := by
  have hf0 : 0 < f := by rcases hf with rfl | rfl <;> norm_num
  have hsched := computeReminderSchedule_eq_of_wake_lt_sleep wake sleep f g hws hf0
  have hbound : ∀ i, i < (parseTimeToMinutes sleep - parseTimeToMinutes wake) / f →
      parseTimeToMinutes wake + i * f < 24 * 60 := by
    intro i hi
    have h1 : (i + 1) * f
        ≤ ((parseTimeToMinutes sleep - parseTimeToMinutes wake) / f) * f :=
      Nat.mul_le_mul_right f (by omega)
    have h2 : ((parseTimeToMinutes sleep - parseTimeToMinutes wake) / f) * f
        ≤ parseTimeToMinutes sleep - parseTimeToMinutes wake :=
      Nat.div_mul_le_self _ f
    have h3 : (i + 1) * f = i * f + f := by ring
    omega
  have hamount : (computeReminderSchedule wake sleep f g).map (fun r => r.amountML)
      = List.replicate ((parseTimeToMinutes sleep - parseTimeToMinutes wake) / f)
          (mathRound ((g / (((parseTimeToMinutes sleep
              - parseTimeToMinutes wake) / f : ℕ) : ℚ)) / 10) * 10) := by
    rw [hsched, List.map_map]
    exact list_range_map_const _ _
  refine ⟨?_, ?_, ?_, ?_, hamount, ?_⟩
  · rw [hsched]
    simp
  · intro h0
    rw [hsched, h0]
    simp
  · rw [hsched, List.map_map]
    refine List.map_congr_left ?_
    intro i hi
    simp only [Function.comp]
    rw [parse_format]
    exact Nat.mod_eq_of_lt (hbound i (List.mem_range.mp hi))
  · rw [hsched, List.map_map]
    calc List.map ((fun (r : ScheduledReminder) => r.index) ∘ fun i =>
          { time := formatMinutesToTime ((parseTimeToMinutes wake + i * f)
                % (24 * 60))
            amountML := mathRound ((g / (((parseTimeToMinutes sleep
                - parseTimeToMinutes wake) / f : ℕ) : ℚ)) / 10) * 10
            index := i })
          (List.range ((parseTimeToMinutes sleep - parseTimeToMinutes wake) / f))
        = List.map id (List.range ((parseTimeToMinutes sleep
            - parseTimeToMinutes wake) / f)) :=
          List.map_congr_left (fun a _ => rfl)
      _ = List.range ((parseTimeToMinutes sleep - parseTimeToMinutes wake) / f) :=
          List.map_id _
  · intro hn0
    have hnQ : (0 : ℚ) < (((parseTimeToMinutes sleep
        - parseTimeToMinutes wake) / f : ℕ) : ℚ) := by exact_mod_cast hn0
    have hne : (((parseTimeToMinutes sleep
        - parseTimeToMinutes wake) / f : ℕ) : ℚ) ≠ 0 := ne_of_gt hnQ
    rw [hamount, List.sum_replicate, nsmul_eq_mul]
    have key := round10_close (g / (((parseTimeToMinutes sleep
        - parseTimeToMinutes wake) / f : ℕ) : ℚ))
    have hcast : (((((parseTimeToMinutes sleep - parseTimeToMinutes wake)
          / f : ℕ) : ℤ) * (mathRound ((g / (((parseTimeToMinutes sleep
          - parseTimeToMinutes wake) / f : ℕ) : ℚ)) / 10) * 10) : ℤ) : ℚ)
        = (((parseTimeToMinutes sleep - parseTimeToMinutes wake) / f : ℕ) : ℚ)
          * ((mathRound ((g / (((parseTimeToMinutes sleep
              - parseTimeToMinutes wake) / f : ℕ) : ℚ)) / 10) * 10 : ℤ) : ℚ) := by
      rw [Int.cast_mul, Int.cast_natCast]
    rw [hcast]
    have heq : (((parseTimeToMinutes sleep - parseTimeToMinutes wake) / f : ℕ) : ℚ)
          * ((mathRound ((g / (((parseTimeToMinutes sleep
              - parseTimeToMinutes wake) / f : ℕ) : ℚ)) / 10) * 10 : ℤ) : ℚ) - g
        = (((mathRound ((g / (((parseTimeToMinutes sleep
              - parseTimeToMinutes wake) / f : ℕ) : ℚ)) / 10) * 10 : ℤ) : ℚ)
            - g / (((parseTimeToMinutes sleep
              - parseTimeToMinutes wake) / f : ℕ) : ℚ))
          * (((parseTimeToMinutes sleep - parseTimeToMinutes wake) / f : ℕ) : ℚ) := by
      rw [sub_mul, div_mul_cancel₀ _ hne]
      ring
    rw [heq, abs_mul, abs_of_pos hnQ]
    have h5 := mul_le_mul_of_nonneg_right key (le_of_lt hnQ)
    linarith

/-- Witness for C2: wake 07:00, sleep 22:00, hourly frequency, goal 2440 ml
gives 15 slots. -/
theorem computeReminderSchedule_sameday_spec_witness :
    parseTimeToMinutes ⟨22, 0⟩ ≤ 1439 ∧
    parseTimeToMinutes ⟨7, 0⟩ < parseTimeToMinutes ⟨22, 0⟩ ∧
    ((60 : ℕ) = 60 ∨ (60 : ℕ) = 90) ∧
    (computeReminderSchedule ⟨7, 0⟩ ⟨22, 0⟩ 60 2440).length
      = (parseTimeToMinutes ⟨22, 0⟩ - parseTimeToMinutes ⟨7, 0⟩) / 60 :=
  ⟨by decide, by decide, Or.inl rfl,
    (computeReminderSchedule_sameday_spec ⟨7, 0⟩ ⟨22, 0⟩ 60 2440 (by decide)
        (by decide) (Or.inl rfl)).1⟩

theorem computeReminderSchedule_eq_of_sleep_lt_wake (wake sleep : HM) (f : ℕ)
    (g : ℚ) (hwm : parseTimeToMinutes wake ≤ 1439)
    (hsw : parseTimeToMinutes sleep < parseTimeToMinutes wake)
    (_hf : 0 < f) :
    computeReminderSchedule wake sleep f g
      = (List.range ((parseTimeToMinutes sleep + 24 * 60
            - parseTimeToMinutes wake) / f)).map
          (fun i =>
            { time := formatMinutesToTime ((parseTimeToMinutes wake + i * f)
                  % (24 * 60))
              amountML := mathRound ((g / (((parseTimeToMinutes sleep + 24 * 60
                  - parseTimeToMinutes wake) / f : ℕ) : ℚ)) / 10) * 10
              index := i }) := by
  have hneg : (parseTimeToMinutes sleep : ℤ)
      - (parseTimeToMinutes wake : ℤ) < 0 := by omega
  have hfd : Int.fdiv ((parseTimeToMinutes sleep : ℤ)
        - (parseTimeToMinutes wake : ℤ) + 24 * 60) (f : ℤ)
      = (((parseTimeToMinutes sleep + 24 * 60
          - parseTimeToMinutes wake) / f : ℕ) : ℤ) := by
    rw [Int.fdiv_eq_ediv _ (Int.natCast_nonneg f)]
    rw [show (parseTimeToMinutes sleep : ℤ)
          - (parseTimeToMinutes wake : ℤ) + 24 * 60
        = ((parseTimeToMinutes sleep + 24 * 60
            - parseTimeToMinutes wake : ℕ) : ℤ) by omega]
    exact (Int.natCast_div _ f).symm
  simp only [computeReminderSchedule, if_pos hneg, hfd]
  rcases Nat.eq_zero_or_pos ((parseTimeToMinutes sleep + 24 * 60
      - parseTimeToMinutes wake) / f) with h0 | h0
  · rw [h0]
    simp
  · rw [if_neg (show ¬ ((((parseTimeToMinutes sleep + 24 * 60
        - parseTimeToMinutes wake) / f : ℕ) : ℤ) ≤ 0) by omega)]
    simp only [Int.toNat_natCast, Int.cast_natCast]

/-- C6 counterexample: at wake = sleep = 08:00 the claimed `sleep ≤ wake`
treatment would give a 24-hour window of `1440 / 60 = 24` slots, but the
source adds 24 h only when the difference is strictly negative, so the
schedule is empty. -/
theorem computeReminderSchedule_equal_times_cx :
    computeReminderSchedule ⟨8, 0⟩ ⟨8, 0⟩ 60 2000 = [] ∧
    (computeReminderSchedule ⟨8, 0⟩ ⟨8, 0⟩ 60 2000).length
      ≠ (parseTimeToMinutes ⟨8, 0⟩ + 24 * 60 - parseTimeToMinutes ⟨8, 0⟩) / 60 :=
  ⟨by decide, by decide⟩

/-- C6 (amended): whenever `sleep < wake` strictly, 24 hours are added to
sleep before subtracting, giving `(sleep + 1440 - wake) / f` slots whose
times are `(wake + i*f) mod 1440` — valid HH:MM values (hours ≤ 23,
minutes ≤ 59); at `sleep = wake` the window is zero and the schedule empty. -/
theorem computeReminderSchedule_midnight_amended (wake sleep : HM) (f : ℕ)
    (g : ℚ) (hwm : parseTimeToMinutes wake ≤ 1439)
    (hsw : parseTimeToMinutes sleep < parseTimeToMinutes wake)
    (hf : f = 60 ∨ f = 90) :
    (computeReminderSchedule wake sleep f g).length
        = (parseTimeToMinutes sleep + 24 * 60 - parseTimeToMinutes wake) / f ∧
    (computeReminderSchedule wake sleep f g).map
        (fun r => parseTimeToMinutes r.time)
      = (List.range ((parseTimeToMinutes sleep + 24 * 60
            - parseTimeToMinutes wake) / f)).map
          (fun i => (parseTimeToMinutes wake + i * f) % (24 * 60)) ∧
    (∀ r ∈ computeReminderSchedule wake sleep f g,
      r.time.hours ≤ 23 ∧ r.time.minutes ≤ 59) := by
  have hf0 : 0 < f := by rcases hf with rfl | rfl <;> norm_num
  have hsched := computeReminderSchedule_eq_of_sleep_lt_wake wake sleep f g
    hwm hsw hf0
  refine ⟨?_, ?_, ?_⟩
  · rw [hsched]
    simp
  · rw [hsched, List.map_map]
    exact List.map_congr_left (fun i _ => parse_format _)
  · rw [hsched]
    intro r hr
    simp only [List.mem_map] at hr
    obtain ⟨i, _, rfl⟩ := hr
    constructor
    · show (parseTimeToMinutes wake + i * f) % (24 * 60) / 60 ≤ 23
      omega
    · show (parseTimeToMinutes wake + i * f) % (24 * 60) % 60 ≤ 59
      omega

/-- Witness for C6 (amended): wake 22:00, sleep 06:00, hourly frequency —
an 8-hour window giving 8 slots. -/
theorem computeReminderSchedule_midnight_amended_witness :
    parseTimeToMinutes ⟨22, 0⟩ ≤ 1439 ∧
    parseTimeToMinutes ⟨6, 0⟩ < parseTimeToMinutes ⟨22, 0⟩ ∧
    ((60 : ℕ) = 60 ∨ (60 : ℕ) = 90) ∧
    (computeReminderSchedule ⟨22, 0⟩ ⟨6, 0⟩ 60 2000).length
      = (parseTimeToMinutes ⟨6, 0⟩ + 24 * 60 - parseTimeToMinutes ⟨22, 0⟩) / 60 :=
  ⟨by decide, by decide, Or.inl rfl,
    (computeReminderSchedule_midnight_amended ⟨22, 0⟩ ⟨6, 0⟩ 60 2000
        (by decide) (by decide) (Or.inl rfl)).1⟩
